import Mathlib

/-!
Shallow embedding of the School App auth backend (`src/main.py`, `src/schemas.py`).

Time is modelled in seconds as `Nat`.  The roles are the `Literal["student",
"teacher"]` values of the source.  The document store (`database.py`, imported
by `main.py` but not under `src/`), the JWT library (`jose`) and the password
hasher (`passlib` bcrypt context) are external collaborators; they are modelled
from the spec (sections 4.1, 4.2 and 4.3), as noted on each definition.
-/

namespace SchoolApp

/-- Role in the system: `Literal["student", "teacher"]` (src/main.py line 123,
src/schemas.py line 18). -/
inductive Role where
  | student
  | teacher
deriving DecidableEq, Repr

/-- `HTTPException(status_code=..., detail=...)` as raised by the handlers. -/
structure HTTPError where
  status : Nat
  detail : String
deriving DecidableEq, Repr

/-- Modelled from the spec (section 4.1): the opaque password digest produced
by the passlib bcrypt context (not under src/).  A digest is either a
well-formed salted bcrypt record or a malformed string that identifies no
hash scheme.  The salted MAC is kept abstract as `bcryptMac`. -/
inductive Digest where
  | bcrypt (salt : Nat) (mac : Nat × String)
  | malformed (raw : String)
deriving DecidableEq, Repr

/-- Modelled from the spec (section 4.1): the salted one-way compression that
bcrypt applies to a password.  One-wayness is not representable in a shallow
embedding; what the spec's properties need is that recomputing with the same
salt reproduces the digest and that distinct passwords give distinct MACs, so
the MAC is modelled as the injective pairing of salt and password. -/
def bcryptMac (salt : Nat) (password : String) : Nat × String :=
  (salt, password)

/-- `get_password_hash` (src/main.py lines 49-50): `pwd_context.hash(password)`.
The bcrypt salt drawn by passlib is made an explicit argument. -/
def get_password_hash (salt : Nat) (password : String) : Digest :=
  .bcrypt salt (bcryptMac salt password)

/-- `verify_password` (src/main.py lines 45-46): `pwd_context.verify`, which
recomputes the salted MAC and compares.  Modelled from the spec (section 4.1):
a malformed digest verifies as false and never throws into the caller flow. -/
def verify_password (plain_password : String) (hashed_password : Digest) : Bool :=
  match hashed_password with
  | .bcrypt salt mac => decide (mac = bcryptMac salt plain_password)
  | .malformed _ => false

/-- The claims of a token: `sub`, `email`, `role` and the expiry timestamp
`exp` (src/main.py lines 38-41 and 53-58). -/
structure Claims where
  sub : Option String
  email : Option String
  role : Option Role
  exp : Nat
deriving DecidableEq, Repr

/-- Token-verification failures (spec section 4.2 and 7). -/
inductive JWTErr where
  | invalidSignature
  | expired
deriving DecidableEq, Repr

/-- Modelled from the spec (section 4.2): the symmetric MAC over the claims
under the server-held secret, kept abstract as the pairing of both. -/
def jwtSignature (secret : String) (c : Claims) : String × Claims :=
  (secret, c)

/-- A signed token: claims plus the signature over them. -/
structure JWToken where
  claims : Claims
  sig : String × Claims
deriving DecidableEq, Repr

/-- Modelled from the spec (section 4.2): `jose.jwt.encode` (not under src/),
signing the claims with the secret. -/
def jwtEncode (secret : String) (c : Claims) : JWToken :=
  ⟨c, jwtSignature secret c⟩

/-- Modelled from the spec (section 4.2): `jose.jwt.decode` (not under src/).
It checks signature integrity first (failing with `InvalidSignature`), then
checks `now < expiry` (failing with `Expired`); on success it returns the
embedded claims unchanged. -/
def jwtDecode (secret : String) (now : Nat) (t : JWToken) : Except JWTErr Claims :=
  if t.sig ≠ jwtSignature secret t.claims then .error .invalidSignature
  else if now < t.claims.exp then .ok t.claims
  else .error .expired

/-- `ACCESS_TOKEN_EXPIRE_MINUTES = 60 * 8` (src/main.py line 28). -/
def ACCESS_TOKEN_EXPIRE_MINUTES : Nat := 60 * 8

/-- The identity data passed to `create_access_token` (the `data` dict at
src/main.py lines 140 and 154-156). -/
structure TokenPayload where
  sub : Option String
  email : Option String
  role : Option Role
deriving DecidableEq, Repr

/-- Python truthiness of the optional `expires_delta` argument in
`expires_delta or timedelta(minutes=ACCESS_TOKEN_EXPIRE_MINUTES)`
(src/main.py line 55): the `or` falls through to the default both when
`expires_delta` is `None` and when it is the falsy `timedelta(0)`.  The
result is the TTL in force, in seconds. -/
def deltaOrDefault (expires_delta : Option Nat) : Nat :=
  match expires_delta with
  | none => ACCESS_TOKEN_EXPIRE_MINUTES * 60
  | some d => if d = 0 then ACCESS_TOKEN_EXPIRE_MINUTES * 60 else d

/-- `create_access_token` (src/main.py lines 53-58): copies the payload, sets
`exp = now + (expires_delta or timedelta(minutes=ACCESS_TOKEN_EXPIRE_MINUTES))`
and signs with the secret.  `expires_delta` is in seconds. -/
def create_access_token (secret : String) (now : Nat) (data : TokenPayload)
    (expires_delta : Option Nat) : JWToken :=
  jwtEncode secret
    { sub := data.sub, email := data.email, role := data.role,
      exp := now + deltaOrDefault expires_delta }

/-- A stored user document (src/schemas.py lines 11-20, plus the Mongo `_id`
added on insert, modelled as a string as `main.py` only ever uses `str(_id)`). -/
structure UserDoc where
  _id : String
  name : String
  email : String
  role : Role
  hashed_password : Digest
  grade : Option String
deriving DecidableEq, Repr

/-- Modelled from the spec (section 4.3): the user directory (`database.py`,
imported by `main.py` but not under src/), a document store with insertion
order and a fresh-id counter. -/
structure Store where
  users : List UserDoc
  nextId : Nat
deriving DecidableEq, Repr

/-- Modelled from the spec (section 4.3): `get_documents("user", {"email": email})`
returns the stored documents whose `email` field matches. -/
def get_documents_by_email (s : Store) (email : String) : List UserDoc :=
  s.users.filter (fun u => decide (u.email = email))

/-- Modelled from the spec (section 4.3): `create_document("user", doc)` inserts
the document, assigning it a fresh `_id`, and returns that id. -/
def create_document (s : Store) (doc : String → UserDoc) : String × Store :=
  let id := "oid" ++ toString s.nextId
  (id, ⟨s.users ++ [doc id], s.nextId + 1⟩)

/-- `credentials_exception` (src/main.py lines 62-66): HTTP 401. -/
def credentials_exception : HTTPError :=
  ⟨401, "Could not validate credentials"⟩

/-- `get_current_user` (src/main.py lines 61-83): decode the token (any
`JWTError` becomes the 401 credentials exception), require the `sub` and
`email` claims (the `role` claim is read but not required), then look the user
up by the embedded email; an empty lookup is again the 401 exception, else the
first matching document is returned. -/
def get_current_user (secret : String) (now : Nat) (store : Store)
    (token : JWToken) : Except HTTPError UserDoc :=
  match jwtDecode secret now token with
  | .error _ => .error credentials_exception
  | .ok payload =>
    match payload.sub, payload.email with
    | some _, some email =>
      match get_documents_by_email store email with
      | [] => .error credentials_exception
      | user :: _ => .ok user
    | _, _ => .error credentials_exception

/-- Python truthiness of the optional `grade` argument: `not grade` holds for
`None` and for the empty string (src/main.py line 124). -/
def gradeFalsy (grade : Option String) : Bool :=
  match grade with
  | none => true
  | some g => decide (g = "")

/-- The body of `register_user`'s 200 response (src/main.py line 141). -/
structure RegisterResponse where
  user_id : String
  access_token : JWToken
  token_type : String
deriving DecidableEq, Repr

/-- The observable side effects of a handler on the outside world, in order:
hashing a password (a pure computation in the model, but an effect the source
performs) and inserting a user document. -/
inductive Effect where
  | hashedPassword
  | insertedUser
deriving DecidableEq, Repr

/-- `register_user` (src/main.py lines 122-141): validation error 400 when
role is student and grade is falsy; conflict 409 when the email is already
present; otherwise hash the password, persist the document and issue a token
bound to the new identity.  Returns the response, the resulting store and the
trace of effects performed. -/
def register_user (secret : String) (salt now : Nat) (store : Store)
    (name email password : String) (role : Role) (grade : Option String) :
    Except HTTPError RegisterResponse × Store × List Effect :=
  if role = Role.student ∧ gradeFalsy grade = true then
    (.error ⟨400, "grade is required for students"⟩, store, [])
  else if get_documents_by_email store email ≠ [] then
    (.error ⟨409, "Email already registered"⟩, store, [])
  else
    let hashed := get_password_hash salt password
    let inserted := create_document store (fun id =>
      { _id := id, name := name, email := email, role := role,
        hashed_password := hashed, grade := grade })
    let token := create_access_token secret now
      ⟨some inserted.1, some email, some role⟩ none
    (.ok ⟨inserted.1, token, "bearer"⟩, inserted.2, [.hashedPassword, .insertedUser])

/-- The body of `login_for_access_token`'s 200 response (the `Token` schema,
src/main.py lines 34-36). -/
structure TokenOut where
  access_token : JWToken
  token_type : String
deriving DecidableEq, Repr

/-- `login_for_access_token` (src/main.py lines 144-157): look up by email and
verify the password; both failures raise the same
`HTTPException(400, "Incorrect email or password")`; otherwise issue a token
from the looked-up user's `_id`, `email` and `role`. -/
def login_for_access_token (secret : String) (now : Nat) (store : Store)
    (email password : String) : Except HTTPError TokenOut :=
  match get_documents_by_email store email with
  | [] => .error ⟨400, "Incorrect email or password"⟩
  | user :: _ =>
    if verify_password password user.hashed_password = false then
      .error ⟨400, "Incorrect email or password"⟩
    else
      .ok ⟨create_access_token secret now
        ⟨some user._id, some user.email, some user.role⟩ none, "bearer"⟩

/-- The user object returned by `GET /me`: every stored field except
`hashed_password` (src/main.py lines 163-165; `_id` is already a string in the
model, so `str(_id)` is the identity). -/
structure PublicUser where
  _id : String
  name : String
  email : String
  role : Role
  grade : Option String
deriving DecidableEq, Repr

/-- `read_users_me` (src/main.py lines 161-166): resolve the current user,
then return it with the sensitive `hashed_password` field removed. -/
def read_users_me (secret : String) (now : Nat) (store : Store)
    (token : JWToken) : Except HTTPError PublicUser :=
  match get_current_user secret now store token with
  | .error e => .error e
  | .ok u => .ok ⟨u._id, u.name, u.email, u.role, u.grade⟩

/-! ## Theorems -/

/-- C1: a token issued at time `t` with TTL `T` — the effective TTL of the
issuance, `deltaOrDefault ed`: the `expires_delta` argument when given and
truthy, else the default of 8 hours — embeds expiry `t + T`; verification
succeeds at every `now < t + T` and fails with `Expired` at every
`now ≥ t + T`. -/
theorem token_ttl_expiry (secret : String) (t : Nat) (d : TokenPayload)
    (ed : Option Nat) (now : Nat) :
    (create_access_token secret t d ed).claims.exp = t + deltaOrDefault ed ∧
    (now < t + deltaOrDefault ed →
      jwtDecode secret now (create_access_token secret t d ed) =
        .ok (create_access_token secret t d ed).claims) ∧
    (t + deltaOrDefault ed ≤ now →
      jwtDecode secret now (create_access_token secret t d ed) =
        .error .expired) := by
  refine ⟨rfl, ?_, ?_⟩
  · intro h
    simp only [create_access_token, jwtEncode, jwtDecode, ne_eq, not_true_eq_false,
      if_false]
    simp [h]
  · intro h
    simp only [create_access_token, jwtEncode, jwtDecode, ne_eq, not_true_eq_false,
      if_false]
    simp [Nat.not_lt.mpr h]

/-- Witness for C1 at `t = 0`, `TTL = 10`: verification succeeds at `now = 9`
and fails with `Expired` at `now = 11`; and at the falsy `expires_delta = 0`
the 8-hour default (28800 s) is in force: success at `now = 28799`, `Expired`
at `now = 28800`. -/
theorem token_ttl_expiry_witness :
    jwtDecode "k" 9 (create_access_token "k" 0 ⟨some "u1", some "a@x.com", some .teacher⟩ (some 10)) =
      .ok (create_access_token "k" 0 ⟨some "u1", some "a@x.com", some .teacher⟩ (some 10)).claims ∧
    jwtDecode "k" 11 (create_access_token "k" 0 ⟨some "u1", some "a@x.com", some .teacher⟩ (some 10)) =
      .error .expired ∧
    jwtDecode "k" 28799 (create_access_token "k" 0 ⟨some "u1", some "a@x.com", some .teacher⟩ (some 0)) =
      .ok (create_access_token "k" 0 ⟨some "u1", some "a@x.com", some .teacher⟩ (some 0)).claims ∧
    jwtDecode "k" 28800 (create_access_token "k" 0 ⟨some "u1", some "a@x.com", some .teacher⟩ (some 0)) =
      .error .expired :=
  ⟨(token_ttl_expiry "k" 0 ⟨some "u1", some "a@x.com", some .teacher⟩ (some 10) 9).2.1 (by decide),
   (token_ttl_expiry "k" 0 ⟨some "u1", some "a@x.com", some .teacher⟩ (some 10) 11).2.2 (by decide),
   (token_ttl_expiry "k" 0 ⟨some "u1", some "a@x.com", some .teacher⟩ (some 0) 28799).2.1 (by decide),
   (token_ttl_expiry "k" 0 ⟨some "u1", some "a@x.com", some .teacher⟩ (some 0) 28800).2.2 (by decide)⟩

/-- C6: verifying a password against its own hash succeeds, and verifying a
distinct password against that hash fails (exactly, in the model of the
spec's salted injective MAC). -/
theorem hash_verify_roundtrip (salt : Nat) (p p1 p2 : String) :
    verify_password p (get_password_hash salt p) = true ∧
    (p1 ≠ p2 → verify_password p1 (get_password_hash salt p2) = false) := by
  constructor
  · simp [verify_password, get_password_hash]
  · intro hne
    simp only [verify_password, get_password_hash, bcryptMac, decide_eq_false_iff_not]
    intro h
    exact hne (Prod.mk.injEq .. ▸ h).2.symm

/-- Witness for C6: `"pw123"` verifies against its own hash, and `"pw124"`
does not verify against the hash of `"pw123"`. -/
theorem hash_verify_roundtrip_witness :
    verify_password "pw123" (get_password_hash 7 "pw123") = true ∧
    verify_password "pw124" (get_password_hash 7 "pw123") = false :=
  ⟨(hash_verify_roundtrip 7 "pw123" "pw124" "pw123").1,
   (hash_verify_roundtrip 7 "pw123" "pw124" "pw123").2 (by decide)⟩

/-- C7: verifying any password against a malformed digest returns `false`
(the function is total, so nothing is thrown into the caller flow), and in the
login flow a user record holding a malformed digest yields the ordinary
`InvalidCredentials` 400 response. -/
theorem verify_malformed_false (p raw : String) (secret : String) (now : Nat)
    (store : Store) (email password : String) :
    verify_password p (Digest.malformed raw) = false ∧
    (∀ u rest, get_documents_by_email store email = u :: rest →
      u.hashed_password = .malformed raw →
      login_for_access_token secret now store email password =
        .error ⟨400, "Incorrect email or password"⟩) := by
  constructor
  · rfl
  · intro u rest hlk hmal
    simp [login_for_access_token, hlk, verify_password, hmal]

/-- Witness for C7 at a store whose only user holds a malformed digest. -/
theorem verify_malformed_false_witness :
    verify_password "pw" (Digest.malformed "garbage") = false ∧
    login_for_access_token "k" 0
        ⟨[⟨"oid0", "Ann", "a@x.com", .teacher, .malformed "garbage", none⟩], 1⟩
        "a@x.com" "pw" =
      .error ⟨400, "Incorrect email or password"⟩ :=
  ⟨(verify_malformed_false "pw" "garbage" "k" 0
      ⟨[⟨"oid0", "Ann", "a@x.com", .teacher, .malformed "garbage", none⟩], 1⟩
      "a@x.com" "pw").1,
   (verify_malformed_false "pw" "garbage" "k" 0
      ⟨[⟨"oid0", "Ann", "a@x.com", .teacher, .malformed "garbage", none⟩], 1⟩
      "a@x.com" "pw").2
     ⟨"oid0", "Ann", "a@x.com", .teacher, .malformed "garbage", none⟩ []
     (by decide) rfl⟩

/-- C2: `get_current_user` answers the 401 credentials exception whenever
token verification fails (for either sub-kind, `InvalidSignature` or
`Expired`, collapsed to the same error), whenever a required claim (`sub` or
`email`) is missing, and whenever the directory lookup for the embedded email
returns no record. -/
theorem current_user_unauthorized (secret : String) (now : Nat) (store : Store)
    (token : JWToken) :
    (∀ e, jwtDecode secret now token = .error e →
      get_current_user secret now store token =
        .error ⟨401, "Could not validate credentials"⟩) ∧
    (∀ c, jwtDecode secret now token = .ok c → (c.sub = none ∨ c.email = none) →
      get_current_user secret now store token =
        .error ⟨401, "Could not validate credentials"⟩) ∧
    (∀ c em, jwtDecode secret now token = .ok c → c.email = some em →
      get_documents_by_email store em = [] →
      get_current_user secret now store token =
        .error ⟨401, "Could not validate credentials"⟩) := by
  refine ⟨?_, ?_, ?_⟩
  · intro e he
    simp [get_current_user, he, credentials_exception]
  · intro c hc hmiss
    rcases hmiss with h | h
    · cases hce : c.email <;>
        simp [get_current_user, hc, h, hce, credentials_exception]
    · cases hcs : c.sub <;>
        simp [get_current_user, hc, h, hcs, credentials_exception]
  · intro c em hc hem hlk
    cases hcs : c.sub <;>
      simp [get_current_user, hc, hem, hcs, hlk, credentials_exception]

/-- Witness for C2: a token signed under a different secret is rejected with
the 401 credentials exception. -/
theorem current_user_unauthorized_witness :
    get_current_user "k" 0 ⟨[], 0⟩
        ⟨⟨some "u1", some "a@x.com", none, 99⟩,
         jwtSignature "other" ⟨some "u1", some "a@x.com", none, 99⟩⟩ =
      .error ⟨401, "Could not validate credentials"⟩ :=
  (current_user_unauthorized "k" 0 ⟨[], 0⟩
      ⟨⟨some "u1", some "a@x.com", none, 99⟩,
       jwtSignature "other" ⟨some "u1", some "a@x.com", none, 99⟩⟩).1
    .invalidSignature (by simp [jwtDecode, jwtSignature])

/-- C8: whenever `get_current_user` succeeds with a stored user record,
`GET /me` returns exactly that record with the `hashed_password` field removed
and every other field (`_id`, name, email, role, grade) unchanged. -/
theorem me_strips_only_password (secret : String) (now : Nat) (store : Store)
    (token : JWToken) (u : UserDoc) :
    get_current_user secret now store token = .ok u →
    read_users_me secret now store token =
      .ok ⟨u._id, u.name, u.email, u.role, u.grade⟩ := by
  intro h
  simp [read_users_me, h]

/-- Witness for C8: a concrete authenticated `GET /me` returns the stored
record of Ann minus her password digest. -/
theorem me_strips_only_password_witness :
    read_users_me "k" 0
        ⟨[⟨"oid0", "Ann", "a@x.com", .teacher, get_password_hash 7 "pw123", none⟩], 1⟩
        (jwtEncode "k" ⟨some "oid0", some "a@x.com", some .teacher, 100⟩) =
      .ok ⟨"oid0", "Ann", "a@x.com", .teacher, none⟩ :=
  me_strips_only_password "k" 0
    ⟨[⟨"oid0", "Ann", "a@x.com", .teacher, get_password_hash 7 "pw123", none⟩], 1⟩
    (jwtEncode "k" ⟨some "oid0", some "a@x.com", some .teacher, 100⟩)
    ⟨"oid0", "Ann", "a@x.com", .teacher, get_password_hash 7 "pw123", none⟩
    rfl

/-- C9: a correctly signed, unexpired token carrying `sub` and `email` but no
`role` claim passes `get_current_user`'s claim validation: with a matching
user in the directory the call succeeds, so a missing `role` claim does not
cause an `Unauthorized` error. -/
theorem missing_role_claim_accepted (secret : String) (now exp : Nat)
    (s em : String) (store : Store) (u : UserDoc) (rest : List UserDoc) :
    now < exp →
    get_documents_by_email store em = u :: rest →
    get_current_user secret now store
        (jwtEncode secret ⟨some s, some em, none, exp⟩) = .ok u := by
  intro hnow hlk
  simp [get_current_user, jwtDecode, jwtEncode, hnow, hlk]

/-- Witness for C9: a token with no `role` claim authenticates Ann. -/
theorem missing_role_claim_accepted_witness :
    get_current_user "k" 0
        ⟨[⟨"oid0", "Ann", "a@x.com", .teacher, get_password_hash 7 "pw123", none⟩], 1⟩
        (jwtEncode "k" ⟨some "oid0", some "a@x.com", none, 100⟩) =
      .ok ⟨"oid0", "Ann", "a@x.com", .teacher, get_password_hash 7 "pw123", none⟩ :=
  missing_role_claim_accepted "k" 0 100 "oid0" "a@x.com"
    ⟨[⟨"oid0", "Ann", "a@x.com", .teacher, get_password_hash 7 "pw123", none⟩], 1⟩
    ⟨"oid0", "Ann", "a@x.com", .teacher, get_password_hash 7 "pw123", none⟩ []
    (by decide) (by decide)

/-- C4: login fails with one undifferentiated error — the same
`HTTPException(400, "Incorrect email or password")` value, hence identical
status code and response shape — both when the email lookup finds no user and
when the password fails verification against the stored digest. -/
theorem login_single_error (secret : String) (now : Nat) (store : Store)
    (email password : String) :
    (get_documents_by_email store email = [] →
      login_for_access_token secret now store email password =
        .error ⟨400, "Incorrect email or password"⟩) ∧
    (∀ u rest, get_documents_by_email store email = u :: rest →
      verify_password password u.hashed_password = false →
      login_for_access_token secret now store email password =
        .error ⟨400, "Incorrect email or password"⟩) := by
  constructor
  · intro h
    simp [login_for_access_token, h]
  · intro u rest hlk hverify
    simp [login_for_access_token, hlk, hverify]

/-- Witness for C4: a login against an empty directory and a login with a
wrong password produce the very same error value. -/
theorem login_single_error_witness :
    login_for_access_token "k" 0 ⟨[], 0⟩ "a@x.com" "pw" =
      .error ⟨400, "Incorrect email or password"⟩ ∧
    login_for_access_token "k" 0
        ⟨[⟨"oid0", "Ann", "a@x.com", .teacher, get_password_hash 7 "pw123", none⟩], 1⟩
        "a@x.com" "wrong" =
      .error ⟨400, "Incorrect email or password"⟩ :=
  ⟨(login_single_error "k" 0 ⟨[], 0⟩ "a@x.com" "pw").1 rfl,
   (login_single_error "k" 0
       ⟨[⟨"oid0", "Ann", "a@x.com", .teacher, get_password_hash 7 "pw123", none⟩], 1⟩
       "a@x.com" "wrong").2
     ⟨"oid0", "Ann", "a@x.com", .teacher, get_password_hash 7 "pw123", none⟩ []
     (by decide) (by decide)⟩

/-- C5: the claims embedded at issuance equal the issuing user's record:
after a successful `register` the token's `sub`/`email`/`role` claims match
the newly persisted document, and after a successful `login` they match the
looked-up document. -/
theorem token_claims_match_user (secret : String) (salt now : Nat) (store : Store)
    (name email password : String) (role : Role) (grade : Option String) :
    (∀ resp store2 evs,
      register_user secret salt now store name email password role grade =
        (.ok resp, store2, evs) →
      ∃ u, u ∈ store2.users ∧ u._id = resp.user_id ∧
        resp.access_token.claims.sub = some u._id ∧
        resp.access_token.claims.email = some u.email ∧
        resp.access_token.claims.role = some u.role) ∧
    (∀ u rest tok, get_documents_by_email store email = u :: rest →
      login_for_access_token secret now store email password = .ok tok →
      tok.access_token.claims.sub = some u._id ∧
      tok.access_token.claims.email = some u.email ∧
      tok.access_token.claims.role = some u.role) := by
  constructor
  · intro resp store2 evs h
    unfold register_user at h
    split at h
    · simp at h
    · split at h
      · simp at h
      · simp only [Prod.mk.injEq, Except.ok.injEq] at h
        obtain ⟨h1, h2, -⟩ := h
        subst h1; subst h2
        refine ⟨_, List.mem_append_right _ (List.mem_singleton.mpr rfl), rfl, ?_, ?_, ?_⟩ <;>
          simp [create_access_token, jwtEncode, create_document]
  · intro u rest tok hlk hlogin
    simp only [login_for_access_token, hlk] at hlogin
    split at hlogin
    · simp at hlogin
    · simp only [Except.ok.injEq] at hlogin
      subst hlogin
      exact ⟨rfl, rfl, rfl⟩

/-- Witness for C5: registering Ann on an empty directory issues a token whose
claims match her persisted record, and logging her in issues a token whose
claims match the looked-up record. -/
theorem token_claims_match_user_witness :
    (∃ u, u ∈ (⟨[⟨"oid0", "Ann", "a@x.com", Role.teacher,
            get_password_hash 7 "pw123", none⟩], 1⟩ : Store).users ∧
      u._id = "oid0" ∧
      (some "oid0" : Option String) = some u._id ∧
      (some "a@x.com" : Option String) = some u.email ∧
      (some Role.teacher : Option Role) = some u.role) ∧
    ((create_access_token "k" 0
        ⟨some "oid0", some "a@x.com", some Role.teacher⟩ none).claims.sub = some "oid0" ∧
      (create_access_token "k" 0
        ⟨some "oid0", some "a@x.com", some Role.teacher⟩ none).claims.email = some "a@x.com" ∧
      (create_access_token "k" 0
        ⟨some "oid0", some "a@x.com", some Role.teacher⟩ none).claims.role = some Role.teacher) :=
  ⟨(token_claims_match_user "k" 7 0 ⟨[], 0⟩ "Ann" "a@x.com" "pw123" .teacher none).1
      ⟨"oid0", create_access_token "k" 0 ⟨some "oid0", some "a@x.com", some .teacher⟩ none, "bearer"⟩
      ⟨[⟨"oid0", "Ann", "a@x.com", .teacher, get_password_hash 7 "pw123", none⟩], 1⟩
      [.hashedPassword, .insertedUser] rfl,
   (token_claims_match_user "k" 7 0
       ⟨[⟨"oid0", "Ann", "a@x.com", .teacher, get_password_hash 7 "pw123", none⟩], 1⟩
       "Ann" "a@x.com" "pw123" .teacher none).2
     ⟨"oid0", "Ann", "a@x.com", .teacher, get_password_hash 7 "pw123", none⟩ []
     ⟨create_access_token "k" 0 ⟨some "oid0", some "a@x.com", some .teacher⟩ none, "bearer"⟩
     rfl rfl⟩

/-- C3: registration rules — a student registration with no grade fails with
the 400 validation error; after any successful registration, a second attempt
with the same email (and passing grade validation) fails with the 409
conflict; a teacher registration with no grade on a fresh email succeeds,
returning a user id and a bearer token. -/
theorem register_rules (secret : String) (salt now : Nat) (store : Store)
    (name email password : String) (role : Role) (grade : Option String) :
    (role = Role.student → grade = none →
      (register_user secret salt now store name email password role grade).1 =
        .error ⟨400, "grade is required for students"⟩) ∧
    (∀ resp store2 evs,
      register_user secret salt now store name email password role grade =
        (.ok resp, store2, evs) →
      ∀ salt2 now2 name2 password2 (role2 : Role) grade2,
        ¬ (role2 = Role.student ∧ gradeFalsy grade2 = true) →
        (register_user secret salt2 now2 store2 name2 email password2 role2 grade2).1 =
          .error ⟨409, "Email already registered"⟩) ∧
    (role = Role.teacher → grade = none →
      get_documents_by_email store email = [] →
      ∃ resp store2,
        register_user secret salt now store name email password role grade =
          (.ok resp, store2, [.hashedPassword, .insertedUser]) ∧
        resp.token_type = "bearer") := by
  refine ⟨?_, ?_, ?_⟩
  · intro hrole hgrade
    subst hrole; subst hgrade
    simp [register_user, gradeFalsy]
  · intro resp store2 evs h salt2 now2 name2 password2 role2 grade2 hval
    unfold register_user at h
    split at h
    · simp at h
    · split at h
      · simp at h
      · simp only [Prod.mk.injEq] at h
        obtain ⟨-, h2, -⟩ := h
        subst h2
        simp only [register_user]
        rw [if_neg hval, if_pos ?pos]
        case pos =>
          simp [create_document, get_documents_by_email, List.filter_append]
  · intro hrole hgrade hlk
    subst hrole; subst hgrade
    simp only [register_user]
    rw [if_neg (by simp), if_neg (by simp [hlk])]
    exact ⟨_, _, rfl, rfl⟩

/-- Witness for C3: student registration without a grade fails with 400;
registering Ann twice with the same email yields 409 on the second attempt;
teacher registration without a grade succeeds with a bearer token. -/
theorem register_rules_witness :
    (register_user "k" 7 0 ⟨[], 0⟩ "Bob" "b@x.com" "pw" .student none).1 =
      .error ⟨400, "grade is required for students"⟩ ∧
    (register_user "k" 8 1
        ⟨[⟨"oid0", "Ann", "a@x.com", Role.teacher, get_password_hash 7 "pw123", none⟩], 1⟩
        "Ann" "a@x.com" "pw123" .teacher none).1 =
      .error ⟨409, "Email already registered"⟩ ∧
    (∃ resp store2,
      register_user "k" 7 0 ⟨[], 0⟩ "Ann" "a@x.com" "pw123" .teacher none =
        (.ok resp, store2, [.hashedPassword, .insertedUser]) ∧
      resp.token_type = "bearer") :=
  ⟨(register_rules "k" 7 0 ⟨[], 0⟩ "Bob" "b@x.com" "pw" .student none).1 rfl rfl,
   (register_rules "k" 7 0 ⟨[], 0⟩ "Ann" "a@x.com" "pw123" .teacher none).2.1
     ⟨"oid0", create_access_token "k" 0 ⟨some "oid0", some "a@x.com", some .teacher⟩ none, "bearer"⟩
     ⟨[⟨"oid0", "Ann", "a@x.com", .teacher, get_password_hash 7 "pw123", none⟩], 1⟩
     [.hashedPassword, .insertedUser] rfl 8 1 "Ann" "pw123" .teacher none (by simp),
   (register_rules "k" 7 0 ⟨[], 0⟩ "Ann" "a@x.com" "pw123" .teacher none).2.2 rfl rfl rfl⟩

/-- C10: when `register` fails (validation error or conflict), the user store
is unchanged and no effect — neither hashing a password nor inserting a user
document — is performed, because both error checks precede the insert. -/
theorem register_error_frame (secret : String) (salt now : Nat) (store : Store)
    (name email password : String) (role : Role) (grade : Option String)
    (e : HTTPError) (store2 : Store) (evs : List Effect) :
    register_user secret salt now store name email password role grade =
      (.error e, store2, evs) →
    store2 = store ∧ evs = [] := by
  intro h
  unfold register_user at h
  split at h
  · simp only [Prod.mk.injEq] at h
    exact ⟨h.2.1.symm, h.2.2.symm⟩
  · split at h
    · simp only [Prod.mk.injEq] at h
      exact ⟨h.2.1.symm, h.2.2.symm⟩
    · simp at h

/-- Witness for C10: a failing student registration leaves the store exactly
as it was and performs no effect. -/
theorem register_error_frame_witness :
    (⟨[], 0⟩ : Store) = ⟨[], 0⟩ ∧ ([] : List Effect) = [] :=
  register_error_frame "k" 7 0 ⟨[], 0⟩ "Bob" "b@x.com" "pw" .student none
    ⟨400, "grade is required for students"⟩ ⟨[], 0⟩ [] rfl

end SchoolApp
